import Mathlib

/-!
Shallow embedding of the model-invocation layer
(`ai_scientist/treesearch/backend/backend_openai.py`) and the reflection-loop
controller (`ai_scientist/perform_graph_abstract.py`) of the repository,
with theorems settling the spec claims about them.

Python strings are embedded as Lean `String` (or as lists of code points,
`List Nat`, where character arithmetic matters); machine integers do not
occur in the modelled code.  External collaborators (the OpenAI client
library, the `json` decoder, wall-clock time, the filesystem and the LaTeX
compiler) are passed in as explicit parameters, so every definition is
executable.
-/

namespace AISci

/-- Split a character list at the first occurrence of `pat`, returning the
part before the occurrence and the part after it; `none` when `pat` does not
occur.  This is the primitive behind both Python's `pat in s` test and the
leftmost-match semantics of `re.search` on a literal pattern. -/
def splitFirst (pat : List Char) : List Char → Option (List Char × List Char)
  | [] => if pat.isEmpty then some ([], []) else none
  | c :: rest =>
    if pat.isPrefixOf (c :: rest) then some ([], (c :: rest).drop pat.length)
    else (splitFirst pat rest).map fun p => (c :: p.1, p.2)

/-- Python's substring test `pat in s`. -/
def strContains (s pat : String) : Bool :=
  (splitFirst pat.data s.data).isSome

/-- Provider family of a model identifier: `backend_openai._setup_openai_client`
branches on `"deepseek" in model`; everything else uses the default OpenAI API. -/
inductive Provider where
  | deepseek
  | openai
deriving DecidableEq, Repr

/-- The branch condition `model and ("deepseek" in model)` of
`_setup_openai_client` (Python truthiness: the empty string is falsy). -/
def isDeepseekModel (m : String) : Bool :=
  decide (m ≠ "") && strContains m "deepseek"

def providerFamily (m : String) : Provider :=
  if isDeepseekModel m then .deepseek else .openai

/-- An `openai.OpenAI(...)` handle.  `ctorId` tags each construction with the
value of the construction counter at creation time, so that "a new client was
constructed" versus "the cached handle was reused" is observable. -/
structure Client where
  provider : Provider
  api_key : Option String
  base_url : Option String
  ctorId : Nat
deriving DecidableEq, Repr

/-- The module-level mutable state of `backend_openai`:
`_client` and `_current_model`, plus a counter of client constructions. -/
structure ClientState where
  client : Option Client
  currentModel : Option String
  constructions : Nat
deriving DecidableEq, Repr

/-- Initial module state: `_client = None`, `_current_model = None`. -/
def initClientState : ClientState := ⟨none, none, 0⟩

/-- The process environment, read by `os.environ.get`. -/
def Env := String → Option String

/-- The `ValueError` raised when `DEEPSEEK_API_KEY` is missing (or empty:
`if not deepseek_api_key`). -/
inductive ConfigError where
  | missingDeepseekKey
deriving DecidableEq, Repr

/-- Function `_setup_openai_client(model)`: recreate the client iff
`_client is None or model != _current_model`; the DeepSeek branch requires a
truthy `DEEPSEEK_API_KEY`; on the raised `ValueError` the module state is
unchanged (the assignments happen after the check). -/
def setup_openai_client (env : Env) (model : String) (st : ClientState) :
    Except ConfigError ClientState :=
  if st.client = none ∨ st.currentModel ≠ some model then
    if isDeepseekModel model then
      match env "DEEPSEEK_API_KEY" with
      | none => .error .missingDeepseekKey
      | some k =>
        if k = "" then .error .missingDeepseekKey
        else
          .ok { client := some ⟨.deepseek, some k, some "https://api.deepseek.com", st.constructions⟩,
                currentModel := some model,
                constructions := st.constructions + 1 }
    else
      .ok { client := some ⟨.openai, none, none, st.constructions⟩,
            currentModel := some model,
            constructions := st.constructions + 1 }
  else
    .ok st

/-- A sequence of `_setup_openai_client` calls from a given state; a raised
`ValueError` leaves the module state unchanged and the sequence (of a caller
catching the error) may continue. -/
def runSetups (env : Env) : List String → ClientState → ClientState
  | [], st => st
  | m :: ms, st =>
    match setup_openai_client env m st with
    | .ok st' => runSetups env ms st'
    | .error _ => runSetups env ms st

/-! ### Request executor: `backend_openai.query` -/

inductive Role where
  | system
  | user
  | assistant
deriving DecidableEq, Repr

structure Message where
  role : Role
  content : String
deriving DecidableEq, Repr

/-- Modelled from the spec: `opt_messages_to_list` lives in
`treesearch/backend/utils.py`, which is absent from the sources; per the spec
the executor "builds the message sequence: system message (if present) →
prior history → new user content, in that fixed order", and `query` supplies
no prior history, only the optional system and user messages. -/
def opt_messages_to_list (system_message user_message : Option String) :
    List Message :=
  (match system_message with
   | some s => [⟨.system, s⟩]
   | none => []) ++
  (match user_message with
   | some u => [⟨.user, u⟩]
   | none => [])

/-- Exception classes the underlying call can raise, quotiented to what the
retry classifier distinguishes.  The first four are the members of
`OPENAI_TIMEOUT_EXCEPTIONS`; `other n` stands for any exception class outside
that tuple. -/
inductive ErrorKind where
  | rateLimit
  | apiConnection
  | apiTimeout
  | internalServer
  | other (n : Nat)
deriving DecidableEq, Repr

/-- Membership in the tuple `OPENAI_TIMEOUT_EXCEPTIONS =
(RateLimitError, APIConnectionError, APITimeoutError, InternalServerError)`. -/
def OPENAI_TIMEOUT_EXCEPTIONS : ErrorKind → Bool
  | .rateLimit => true
  | .apiConnection => true
  | .apiTimeout => true
  | .internalServer => true
  | .other _ => false

/-- A minimal JSON value, the result type of the external `json.loads`. -/
inductive JsonV where
  | null
  | bool (b : Bool)
  | num (n : Int)
  | str (s : String)
  | arr (xs : List JsonV)
  | obj (fields : List (String × JsonV))

/-- Modelled from the spec: `FunctionSpec` lives in
`treesearch/backend/utils.py`, absent from the sources; per the spec it is a
"name, human-readable description, parameter schema ..., and a flag
indicating the call is mandatory". -/
structure FunctionSpec where
  name : String
  description : String
  json_schema : JsonV
  mandatory : Bool

/-- The object `choice.message.tool_calls[0].function`. -/
structure ToolCallFunction where
  name : String
  arguments : String
deriving DecidableEq, Repr

/-- One element of `choice.message.tool_calls`. -/
structure ToolCall where
  function : ToolCallFunction
deriving DecidableEq, Repr

/-- The object `completion.choices[i].message`: free-text content (possibly `None`) and
the tool-call list (possibly empty). -/
structure ChoiceMessage where
  content : Option String
  tool_calls : List ToolCall
deriving DecidableEq, Repr

structure Usage where
  prompt_tokens : Nat
  completion_tokens : Nat
deriving DecidableEq, Repr

/-- The provider completion object, as read by `query`. -/
structure Completion where
  choices : List ChoiceMessage
  usage : Usage
  system_fingerprint : String
  model : String
  created : Nat
deriving DecidableEq, Repr

/-- Modelled from the spec: `backoff_create` lives in
`treesearch/backend/utils.py`, absent from the sources; per the spec the
retry engine retries failures in the given transient set with exponential
backoff "up to a fixed maximum attempt count", surfaces the last transient
failure when attempts are exhausted, and lets "any failure kind outside the
transient set propagate immediately on the first occurrence — no retry".
`call k` is the outcome of the `k`-th underlying provider call; the returned
`Nat` is the number of underlying calls issued.  `retriesLeft` is the number
of further attempts permitted after the current one. -/
def backoffRun (transient : ErrorKind → Bool)
    (call : Nat → Except ErrorKind Completion) :
    Nat → Nat → Except ErrorKind Completion × Nat
  | k, retriesLeft =>
    match call k with
    | .ok c => (.ok c, 1)
    | .error e =>
      if transient e then
        match retriesLeft with
        | 0 => (.error e, 1)
        | r + 1 =>
          let next := backoffRun transient call (k + 1) r
          (next.1, next.2 + 1)
      else (.error e, 1)

/-- Call `backoff_create(fn, OPENAI_TIMEOUT_EXCEPTIONS, ...)` with a maximum of
`maxAttempts` underlying calls. -/
def backoff_create (maxAttempts : Nat) (transient : ErrorKind → Bool)
    (call : Nat → Except ErrorKind Completion) :
    Except ErrorKind Completion × Nat :=
  backoffRun transient call 0 (maxAttempts - 1)

/-- The ways `query` can raise, beyond what the retry engine resolves. -/
inductive QueryError where
  /-- the `ValueError` from `_setup_openai_client` (missing credential). -/
  | config (e : ConfigError)
  /-- an exception from the underlying call, propagated out of `backoff_create`. -/
  | provider (e : ErrorKind)
  /-- the `IndexError` from `completion.choices[0]` on an empty choice list. -/
  | indexError
  /-- the `AssertionError` reading "function_call is empty, it is not a function call". -/
  | emptyToolCalls
  /-- the `AssertionError` reading "Function name mismatch". -/
  | schemaMismatch
  /-- the `json.JSONDecodeError`, re-raised. -/
  | jsonDecode

/-- Type `OutputType`: raw text without a `FunctionSpec` (the content may be
`None`), the decoded argument payload with one. -/
inductive OutputType where
  | text (s : Option String)
  | structured (v : JsonV)

/-- The provider-reported metadata dict built at the end of `query`. -/
structure Info where
  system_fingerprint : String
  model : String
  created : Nat
deriving DecidableEq, Repr

/-- The tuple `(output, req_time, in_tokens, out_tokens, info)` that `query`
returns. -/
structure QueryResult where
  output : OutputType
  req_time : Nat
  in_tokens : Nat
  out_tokens : Nat
  info : Info

/-- Function `backend_openai.query`.  External inputs are explicit: `env` is the
process environment, `jsonLoads` the external `json.loads`, `elapsed` the
wall-clock duration measured around the call, `call` the provider (given the
outgoing message list, the outcome of each underlying attempt), and `st` the
module-level client state.  The result carries the updated module state and
the number of underlying provider calls issued. -/
def query (env : Env) (jsonLoads : String → Option JsonV) (elapsed : Nat)
    (maxAttempts : Nat)
    (system_message user_message : Option String)
    (func_spec : Option FunctionSpec)
    (model : String)
    (call : List Message → Nat → Except ErrorKind Completion)
    (st : ClientState) :
    Except QueryError QueryResult × ClientState × Nat :=
  match setup_openai_client env model st with
  | .error e => (.error (.config e), st, 0)
  | .ok st' =>
    let messages := opt_messages_to_list system_message user_message
    match backoff_create maxAttempts OPENAI_TIMEOUT_EXCEPTIONS (call messages) with
    | (.error e, n) => (.error (.provider e), st', n)
    | (.ok completion, n) =>
      match completion.choices with
      | [] => (.error .indexError, st', n)
      | choice :: _ =>
        let info : Info :=
          { system_fingerprint := completion.system_fingerprint,
            model := completion.model,
            created := completion.created }
        match func_spec with
        | none =>
          (.ok { output := .text choice.content,
                 req_time := elapsed,
                 in_tokens := completion.usage.prompt_tokens,
                 out_tokens := completion.usage.completion_tokens,
                 info := info }, st', n)
        | some fs =>
          match choice.tool_calls with
          | [] => (.error .emptyToolCalls, st', n)
          | tc :: _ =>
            if tc.function.name = fs.name then
              match jsonLoads tc.function.arguments with
              | none => (.error .jsonDecode, st', n)
              | some v =>
                (.ok { output := .structured v,
                       req_time := elapsed,
                       in_tokens := completion.usage.prompt_tokens,
                       out_tokens := completion.usage.completion_tokens,
                       info := info }, st', n)
            else (.error .schemaMismatch, st', n)

/-! ### Reflection-loop controller: `perform_graph_abstract` -/

/-- Drop leading and trailing whitespace: Python's `str.strip()` on the
(ASCII) whitespace that occurs here. -/
def pyStrip (l : List Char) : List Char :=
  ((l.dropWhile Char.isWhitespace).reverse.dropWhile Char.isWhitespace).reverse

/-- Evaluate `re.search(r"```latex(.*?)```", s, re.DOTALL)` followed by
`.group(1).strip()`: the text between the first occurrence of the opening
marker and the first closing fence after it, stripped; `none` when the
pattern does not match.  (Leftmost, then shortest: the non-greedy group ends
at the first subsequent "```"; and since the pattern has no self-overlap, the
regex fails exactly when no "```" follows the first "```latex".) -/
def extractLatexBlock (s : String) : Option String :=
  match splitFirst "```latex".data s.data with
  | none => none
  | some (_, rest) =>
    match splitFirst "```".data rest with
    | none => none
    | some (body, _) => some ⟨pyStrip body⟩

/-- The sentinel test `"I am done" in reflection_response`. -/
def hasDoneSentinel (response : String) : Bool :=
  strContains response "I am done"

/-- One compile invocation's target: `base_pdf_file + ".pdf"` (the
`no_generation` branch), `base_pdf_file + "_{k}.pdf"`, or
`base_pdf_file + "_final.pdf"`. -/
inductive CompileTarget where
  | plain
  | numbered (k : Nat)
  | final
deriving DecidableEq, Repr

/-- The reflection loop `for i in range(n_reflections)` of
`perform_graph_abstract`, lines 360-419.  Each round: compile the current
artifact to the `attempt`-numbered target, read it back, query the model
(`resp i` is the reply of round `i`); a reply containing the sentinel breaks
out of the loop; otherwise a fenced `latex` block in the reply replaces the
artifact and the absence of one keeps it.  Returns the final artifact, the
numbered compile targets issued, and the number of model queries issued. -/
def reflectLoop (resp : Nat → String) :
    Nat → Nat → Nat → String → String × List Nat × Nat
  | _, 0, _, artifact => (artifact, [], 0)
  | i, r + 1, attempt, artifact =>
    let response := resp i
    if hasDoneSentinel response then (artifact, [attempt], 1)
    else
      let artifact' :=
        match extractLatexBlock response with
        | some code => code
        | none => artifact
      let rest := reflectLoop resp (i + 1) r (attempt + 1) artifact'
      (rest.1, attempt :: rest.2.1, rest.2.2 + 1)

/-- Outcome of the generation-and-reflection phase of
`perform_graph_abstract` (everything after the first model reply):
the returned flag, the artifact held at the end, the compile invocations in
order, and the number of reflection-round model queries issued. -/
structure GAResult where
  success : Bool
  artifact : String
  compiles : List CompileTarget
  rounds : Nat
deriving Repr

/-- Function `perform_graph_abstract`, lines 346-424, from the first model reply
`genResponse` on: extract the fenced `latex` block (on failure return
`False` at once); then run `n` reflection rounds driven by the replies
`resp`; then one final compile, and return whether the final PDF exists.
`pdfExists t` is the filesystem's answer, after the run, to
`osp.exists` on compile target `t`'s output path. -/
def performGAGenPhase (genResponse : String) (resp : Nat → String) (n : Nat)
    (pdfExists : CompileTarget → Bool) : GAResult :=
  match extractLatexBlock genResponse with
  | none => { success := false, artifact := "", compiles := [], rounds := 0 }
  | some ga0 =>
    let loop := reflectLoop resp 0 n 0 ga0
    { success := pdfExists .final,
      artifact := loop.1,
      compiles := loop.2.1.map .numbered ++ [.final],
      rounds := loop.2.2 }

/-! ### `remove_accents_and_clean` -/

/-- The character class `[a-zA-Z0-9:_@\x7b\x7d,-]` kept by the `re.sub`, on
code points (the braces are 123 and 125). -/
def allowedCp (c : Nat) : Bool :=
  (48 ≤ c && c ≤ 57) || (65 ≤ c && c ≤ 90) || (97 ≤ c && c ≤ 122) ||
  c == 58 || c == 95 || c == 64 || c == 123 || c == 125 || c == 44 || c == 45

/-- Python `str.lower()` restricted to the code points that survive the filters
(only `A`-`Z` are cased there). -/
def lowerCp (c : Nat) : Nat :=
  if 65 ≤ c ∧ c ≤ 90 then c + 32 else c

/-- Function `remove_accents_and_clean`, on strings as code-point lists: NFKD
normalisation (the external `unicodedata.normalize("NFKD", ·)`, passed in as
`nfkd`), then `encode("ASCII", "ignore")` (drop code points ≥ 128), then the
`re.sub` keeping only the allowed class, then `lower()`. -/
def remove_accents_and_clean (nfkd : List Nat → List Nat) (s : List Nat) :
    List Nat :=
  ((((nfkd s).filter (fun c => c < 128)).filter allowedCp).map lowerCp)

/-! ### Filesystem/effect trace of `perform_graph_abstract` -/

/-- Python `os.path.join` for the simple relative names used here. -/
def pathJoin (a b : String) : String := a ++ "/" ++ b

/-- The observable side effects of `perform_graph_abstract`, in program
order: directory removal/creation, input-file reads, directory listing,
artifact writes, VLM and LLM model calls, the `chktex` check and the
compile subprocess. -/
inductive Effect where
  | rmtree (p : String)
  | makedirs (p : String)
  | readFile (p : String)
  | listDir (p : String)
  | writeFile (p : String)
  | vlmCall (image : String)
  | llmCall
  | chktex (p : String)
  | compile (t : CompileTarget)
deriving DecidableEq, Repr

/-- Effects that consume an input or invoke a model — the ones claim C10
requires to happen only after the `graphical_abstract` folder reset. -/
def isInputEffect : Effect → Bool
  | .readFile _ => true
  | .listDir _ => true
  | .vlmCall _ => true
  | .llmCall => true
  | _ => false

/-- The filesystem configuration and model behaviour one invocation of
`perform_graph_abstract` runs against. -/
structure GAConfig where
  baseFolder : String
  /-- the value of `osp.exists(ga_folder)` at entry. -/
  gaFolderExists : Bool
  researchIdeaExists : Bool
  ideaMdExists : Bool
  baselineSummaryExists : Bool
  researchSummaryExists : Bool
  ablationSummaryExists : Bool
  latexFolderExists : Bool
  templateTexExists : Bool
  figuresDirExists : Bool
  /-- the `.png` entries of `figures/`. -/
  pngs : List String
  aggregatorExists : Bool
  /-- the value of `osp.exists(ga_file)` in the `no_generation` branch. -/
  gaTexExists : Bool
  /-- the `try` block around VLM description generation raises. -/
  vlmRaises : Bool
  /-- the first model reply. -/
  genResponse : String
  /-- the reflection-round replies. -/
  reflResponses : Nat → String
  nReflections : Nat

/-- Effect trace of the reflection loop (lines 360-419): per round a compile,
a read-back of the artifact file, the `chktex` run, the model query, and —
when the reply has no sentinel but has a fenced block — a write. -/
def reflectTrace (gaFile : String) (resp : Nat → String) :
    Nat → Nat → Nat → List Effect
  | _, 0, _ => []
  | i, r + 1, attempt =>
    [.compile (.numbered attempt), .readFile gaFile, .chktex gaFile, .llmCall] ++
    if hasDoneSentinel (resp i) then []
    else
      (match extractLatexBlock (resp i) with
       | some _ => [.writeFile gaFile]
       | none => []) ++
      reflectTrace gaFile resp (i + 1) r (attempt + 1)

/-- The effect trace of one `perform_graph_abstract(base_folder,
no_generation, ...)` invocation, in program order: reset of the
`graphical_abstract` folder first, then the input loads (idea text, the three
summaries, the LaTeX writeup, the figures listing, the aggregator script),
then either the `no_generation` compile of an existing file, or the VLM
descriptions, the generation query, and — when a fenced block was extracted —
the artifact write, the reflection loop and the final compile. -/
def performGATrace (cfg : GAConfig) (noGeneration : Bool) : List Effect :=
  let base := cfg.baseFolder
  let ga := pathJoin base "graphical_abstract"
  let gaFile := pathJoin ga "graphical_abstract.tex"
  (if cfg.gaFolderExists then [.rmtree ga] else []) ++
  [.makedirs ga] ++
  (if cfg.researchIdeaExists then [.readFile (pathJoin base "research_idea.md")]
   else if cfg.ideaMdExists then [.readFile (pathJoin base "idea.md")]
   else []) ++
  (if cfg.baselineSummaryExists then
     [.readFile (pathJoin base "logs/0-run/baseline_summary.json")] else []) ++
  (if cfg.researchSummaryExists then
     [.readFile (pathJoin base "logs/0-run/research_summary.json")] else []) ++
  (if cfg.ablationSummaryExists then
     [.readFile (pathJoin base "logs/0-run/ablation_summary.json")] else []) ++
  (if cfg.latexFolderExists && cfg.templateTexExists then
     [.readFile (pathJoin (pathJoin base "latex") "template.tex")] else []) ++
  (if cfg.figuresDirExists then [.listDir (pathJoin base "figures")] else []) ++
  (if cfg.aggregatorExists then
     [.readFile (pathJoin base "auto_plot_aggregator.py")] else []) ++
  if noGeneration then
    if cfg.gaTexExists then [.compile .plain] else []
  else
    (if cfg.vlmRaises then []
     else cfg.pngs.map fun p => .vlmCall (pathJoin (pathJoin base "figures") p)) ++
    [.llmCall] ++
    match extractLatexBlock cfg.genResponse with
    | none => []
    | some _ =>
      [.writeFile gaFile] ++
      reflectTrace gaFile cfg.reflResponses 0 cfg.nReflections 0 ++
      [.compile .final]

/-- Number of effects the folder reset occupies at the head of the trace. -/
def cleanupLen (cfg : GAConfig) : Nat :=
  if cfg.gaFolderExists then 2 else 1

/-! ### Concrete example data used by witnesses and counterexamples -/

/-- An environment with no variables set (in particular no
`DEEPSEEK_API_KEY`). -/
def env0 : Env := fun _ => none

/-- A `json.loads` stand-in that accepts nothing. -/
def jl0 : String → Option JsonV := fun _ => none

/-- Module state after resolving `"gpt-4o-2024-05-13"` from the initial
state. -/
def stAfterGpt : ClientState :=
  { client := some ⟨.openai, none, none, 0⟩,
    currentModel := some "gpt-4o-2024-05-13",
    constructions := 1 }

/-- Module state after then resolving `"o1-2024-12-17"`. -/
def stAfterO1 : ClientState :=
  { client := some ⟨.openai, none, none, 1⟩,
    currentModel := some "o1-2024-12-17",
    constructions := 2 }

/-- A successful free-text completion. -/
def compEx : Completion :=
  { choices := [{ content := some "REPLY", tool_calls := [] }],
    usage := { prompt_tokens := 3, completion_tokens := 5 },
    system_fingerprint := "fp",
    model := "gpt-4o-2024-05-13",
    created := 7 }

/-- A provider that answers every attempt with `compEx`, whatever the
messages. -/
def callEx : List Message → Nat → Except ErrorKind Completion :=
  fun _ _ => .ok compEx

/-- The value `query` returns for `compEx` without a `FunctionSpec`. -/
def resEx : QueryResult :=
  { output := .text (some "REPLY"),
    req_time := 0,
    in_tokens := 3,
    out_tokens := 5,
    info := { system_fingerprint := "fp", model := "gpt-4o-2024-05-13",
              created := 7 } }

/-! ## Claim C1: client-manager caching -/

/-- Claim C1 as stated: a resolution for a model in the same provider family
as the currently cached client reuses the cached client handle — the module
state is left untouched, in particular no new client is constructed. -/
def sameFamilyReusesCachedClient : Prop :=
  ∀ (env : Env) (model : String) (st st' : ClientState) (c : Client),
    st.client = some c →
    providerFamily model = c.provider →
    setup_openai_client env model st = .ok st' →
    st' = st

/-- C1, counterexample: the cache is keyed on the exact model string, not the
provider family.  After resolving `"gpt-4o-2024-05-13"`, resolving
`"o1-2024-12-17"` — a model of the same (OpenAI) family as the cached
client — still constructs a new client: the construction counter advances
and the cached handle is replaced.  Hence the stated caching discipline is
false. -/
theorem client_cache_not_family_keyed :
    setup_openai_client env0 "gpt-4o-2024-05-13" initClientState = .ok stAfterGpt ∧
    setup_openai_client env0 "o1-2024-12-17" stAfterGpt = .ok stAfterO1 ∧
    providerFamily "o1-2024-12-17" = Provider.openai ∧
    stAfterGpt.client = some ⟨.openai, none, none, 0⟩ ∧
    stAfterO1.constructions = stAfterGpt.constructions + 1 ∧
    stAfterO1.client ≠ stAfterGpt.client ∧
    ¬ sameFamilyReusesCachedClient := by
  refine ⟨rfl, rfl, by decide, rfl, rfl, by decide, ?_⟩
  intro h
  have h2 := h env0 "o1-2024-12-17" stAfterGpt stAfterO1 ⟨.openai, none, none, 0⟩
    rfl (by decide) rfl
  exact absurd (congrArg ClientState.constructions h2) (by decide)

/-- C1 (amended): `_setup_openai_client` caches exactly one live client keyed
on the exact model string: a resolution for the same model string as the one
cached reuses the cached client with the state untouched, while a resolution
for any different model string — regardless of provider family — constructs a
new client (whenever it succeeds) and re-keys the cache to the new model. -/
theorem client_cache_exact_model_key (env : Env) (model : String)
    (st : ClientState) :
    (st.client ≠ none → st.currentModel = some model →
      setup_openai_client env model st = .ok st) ∧
    (st.currentModel ≠ some model →
      ∀ st', setup_openai_client env model st = .ok st' →
        st'.constructions = st.constructions + 1 ∧
        st'.currentModel = some model) := by
  constructor
  · intro h1 h2
    unfold setup_openai_client
    rw [if_neg]
    push_neg
    exact ⟨h1, by rw [h2]⟩
  · intro hne st' h
    unfold setup_openai_client at h
    rw [if_pos (Or.inr hne)] at h
    split at h
    · split at h
      · exact absurd h (by simp)
      · split at h
        · exact absurd h (by simp)
        · cases h
          exact ⟨rfl, rfl⟩
    · cases h
      exact ⟨rfl, rfl⟩

/-- Witness for `client_cache_exact_model_key` at concrete inputs: resolving
the cached model string reuses the state; resolving a different model string
advances the construction counter. -/
theorem client_cache_exact_model_key_witness :
    setup_openai_client env0 "gpt-4o-2024-05-13" stAfterGpt = .ok stAfterGpt ∧
    (stAfterO1.constructions = stAfterGpt.constructions + 1 ∧
      stAfterO1.currentModel = some "o1-2024-12-17") :=
  ⟨(client_cache_exact_model_key env0 "gpt-4o-2024-05-13" stAfterGpt).1
      (by decide) rfl,
   (client_cache_exact_model_key env0 "o1-2024-12-17" stAfterGpt).2
      (by decide) stAfterO1 rfl⟩

/-! ## Claim C4: missing DeepSeek credential -/

/-- Predicate: `DEEPSEEK_API_KEY` is absent (or empty, which `if not deepseek_api_key`
also treats as absent). -/
def keyFalsy (env : Env) : Prop :=
  env "DEEPSEEK_API_KEY" = none ∨ env "DEEPSEEK_API_KEY" = some ""

/-- With a falsy `DEEPSEEK_API_KEY`, a resolution of a DeepSeek-family model
from any state whose cache slot does not already hold that exact model raises
the `ValueError`. -/
theorem setup_noKey_deepseek_error (env : Env) (st : ClientState) (m : String)
    (hk : keyFalsy env) (hm : isDeepseekModel m = true)
    (hcached : st.currentModel ≠ some m) :
    setup_openai_client env m st = .error .missingDeepseekKey := by
  unfold setup_openai_client
  rw [if_pos (Or.inr hcached), if_pos hm]
  rcases hk with hk | hk <;> rw [hk]
  rfl

/-- One successful `_setup_openai_client` step preserves the invariant that
the cached model string is never a DeepSeek-family one, as long as the
credential is falsy. -/
theorem setup_preserves_no_deepseek (env : Env) (st : ClientState)
    (m : String) (st' : ClientState) (hk : keyFalsy env)
    (hst : ∀ x, st.currentModel = some x → isDeepseekModel x = false)
    (h : setup_openai_client env m st = .ok st') :
    ∀ x, st'.currentModel = some x → isDeepseekModel x = false := by
  unfold setup_openai_client at h
  split at h
  · split at h
    · rcases hk with hk | hk <;> rw [hk] at h <;> simp at h
    · cases h
      intro x hx
      cases hx
      simpa using ‹¬ isDeepseekModel m = true›
  · cases h
    exact hst

/-- Under a falsy credential, every state reachable by a sequence of
resolutions from the initial module state has a non-DeepSeek cached model. -/
theorem runSetups_no_deepseek (env : Env) (hk : keyFalsy env) :
    ∀ (ms : List String) (st : ClientState),
      (∀ x, st.currentModel = some x → isDeepseekModel x = false) →
      ∀ x, (runSetups env ms st).currentModel = some x →
        isDeepseekModel x = false := by
  intro ms
  induction ms with
  | nil => intro st hst; simpa [runSetups] using hst
  | cons m ms ih =>
    intro st hst
    unfold runSetups
    cases hs : setup_openai_client env m st with
    | ok st' => exact ih st' (setup_preserves_no_deepseek env st m st' hk hst hs)
    | error e => exact ih st hst

/-- Claim C4: in any execution under an environment whose `DEEPSEEK_API_KEY`
is absent (or empty) — i.e. from any module state reachable from the initial
one by previous resolutions — a call targeting a DeepSeek-family model fails
at client-creation time with the configuration `ValueError`, and `query`
propagates it having issued zero underlying provider calls, so the retry
engine (which only wraps the provider call) never sees it. -/
theorem deepseek_missing_key_config_error
    (env : Env) (models : List String) (m : String)
    (hk : keyFalsy env) (hm : isDeepseekModel m = true) :
    setup_openai_client env m (runSetups env models initClientState) =
      .error .missingDeepseekKey ∧
    ∀ (jl : String → Option JsonV) (elapsed maxA : Nat)
      (sys usr : Option String) (fs : Option FunctionSpec)
      (call : List Message → Nat → Except ErrorKind Completion),
      query env jl elapsed maxA sys usr fs m call
          (runSetups env models initClientState) =
        (.error (.config .missingDeepseekKey),
          runSetups env models initClientState, 0) := by
  have hreach := runSetups_no_deepseek env hk models initClientState
    (by intro x hx; simp [initClientState] at hx)
  have hcached : (runSetups env models initClientState).currentModel ≠ some m := by
    intro hc
    have := hreach m hc
    rw [hm] at this
    cases this
  have hsetup := setup_noKey_deepseek_error env
    (runSetups env models initClientState) m hk hm hcached
  refine ⟨hsetup, ?_⟩
  intro jl elapsed maxA sys usr fs call
  unfold query
  rw [hsetup]

/-- Witness for `deepseek_missing_key_config_error`: after resolving an
OpenAI model, a `"deepseek-chat"` call under an empty environment raises the
configuration error and `query` makes zero provider calls. -/
theorem deepseek_missing_key_config_error_witness :
    setup_openai_client env0 "deepseek-chat"
      (runSetups env0 ["gpt-4o-2024-05-13"] initClientState) =
      .error .missingDeepseekKey ∧
    query env0 jl0 0 3 (some "sys") (some "usr") none "deepseek-chat" callEx
        (runSetups env0 ["gpt-4o-2024-05-13"] initClientState) =
      (.error (.config .missingDeepseekKey),
        runSetups env0 ["gpt-4o-2024-05-13"] initClientState, 0) := by
  have h := deepseek_missing_key_config_error env0 ["gpt-4o-2024-05-13"]
    "deepseek-chat" (Or.inl rfl) (by decide)
  exact ⟨h.1, h.2 jl0 0 3 (some "sys") (some "usr") none callEx⟩

/-! ## Claim C3: non-transient errors propagate after one call -/

/-- Claim C3: when the first underlying provider call raises an error kind
outside `OPENAI_TIMEOUT_EXCEPTIONS`, `query` propagates it to the caller
after exactly one underlying call — no retry, whatever the configured
maximum attempt count. -/
theorem nontransient_error_single_call
    (env : Env) (jl : String → Option JsonV) (elapsed maxA : Nat)
    (sys usr : Option String) (fs : Option FunctionSpec) (model : String)
    (st st' : ClientState)
    (call : List Message → Nat → Except ErrorKind Completion) (e : ErrorKind)
    (hsetup : setup_openai_client env model st = .ok st')
    (htrans : OPENAI_TIMEOUT_EXCEPTIONS e = false)
    (hcall : call (opt_messages_to_list sys usr) 0 = .error e) :
    query env jl elapsed maxA sys usr fs model call st =
      (.error (.provider e), st', 1) := by
  have hb : backoff_create maxA OPENAI_TIMEOUT_EXCEPTIONS
      (call (opt_messages_to_list sys usr)) = (.error e, 1) := by
    unfold backoff_create
    rw [backoffRun, hcall]
    simp [htrans]
  unfold query
  simp only [hsetup, hb]

/-- Witness for `nontransient_error_single_call`: an `AuthenticationError`
stand-in (any non-transient kind) on the first attempt propagates with an
underlying call count of one, even with a three-attempt budget. -/
theorem nontransient_error_single_call_witness :
    query env0 jl0 0 3 (some "sys") (some "usr") none "gpt-4o-2024-05-13"
        (fun _ _ => .error (.other 0)) initClientState =
      (.error (.provider (.other 0)), stAfterGpt, 1) :=
  nontransient_error_single_call env0 jl0 0 3 (some "sys") (some "usr") none
    "gpt-4o-2024-05-13" initClientState stAfterGpt
    (fun _ _ => .error (.other 0)) (.other 0) rfl rfl rfl

/-! ## Claim C6: forced-function name mismatch -/

/-- Claim C6: on a forced-function `query` (a `FunctionSpec` is present)
whose reply's tool-call name differs from the requested `FunctionSpec.name`,
`query` raises (the assertion "Function name mismatch", the spec's
`SchemaMismatchError`) and never returns a value — whatever the argument
payload and however many transient retries preceded the successful
completion. -/
theorem function_name_mismatch_raises
    (env : Env) (jl : String → Option JsonV) (elapsed maxA : Nat)
    (sys usr : Option String) (model : String) (st st' : ClientState)
    (call : List Message → Nat → Except ErrorKind Completion)
    (fs : FunctionSpec) (comp : Completion) (n : Nat)
    (choice : ChoiceMessage) (restC : List ChoiceMessage)
    (tc : ToolCall) (restT : List ToolCall)
    (hsetup : setup_openai_client env model st = .ok st')
    (hb : backoff_create maxA OPENAI_TIMEOUT_EXCEPTIONS
        (call (opt_messages_to_list sys usr)) = (.ok comp, n))
    (hch : comp.choices = choice :: restC)
    (htc : choice.tool_calls = tc :: restT)
    (hname : tc.function.name ≠ fs.name) :
    query env jl elapsed maxA sys usr (some fs) model call st =
      (.error .schemaMismatch, st', n) := by
  unfold query
  simp only [hsetup, hb, hch, htc]
  simp [hname]

/-- A completion whose (only) tool call names `"wrong_fn"`. -/
def compMismatch : Completion :=
  { choices := [{ content := none,
                  tool_calls := [⟨⟨"wrong_fn", "null"⟩⟩] }],
    usage := { prompt_tokens := 2, completion_tokens := 4 },
    system_fingerprint := "fp2",
    model := "gpt-4o-2024-05-13",
    created := 9 }

/-- A `FunctionSpec` requesting the function `"right_fn"`. -/
def fsEx : FunctionSpec :=
  { name := "right_fn", description := "d", json_schema := .null,
    mandatory := true }

/-- Witness for `function_name_mismatch_raises` at concrete inputs. -/
theorem function_name_mismatch_raises_witness :
    query env0 jl0 0 3 (some "sys") (some "usr") (some fsEx)
        "gpt-4o-2024-05-13" (fun _ _ => .ok compMismatch) initClientState =
      (.error .schemaMismatch, stAfterGpt, 1) :=
  function_name_mismatch_raises env0 jl0 0 3 (some "sys") (some "usr")
    "gpt-4o-2024-05-13" initClientState stAfterGpt
    (fun _ _ => .ok compMismatch) fsEx compMismatch 1
    { content := none, tool_calls := [⟨⟨"wrong_fn", "null"⟩⟩] } []
    ⟨⟨"wrong_fn", "null"⟩⟩ []
    rfl rfl rfl rfl (by decide)

/-! ## Claim C2: the returned value and the message history -/

/-- Claim C2 as stated: every successful `query` call's returned value
includes the updated message history — some fixed projection of the returned
value yields the turns that were sent (which, `query` accepting no prior
history, are the optional system turn and the new user turn) followed by the
new assistant turn. -/
def queryReturnsUpdatedHistory : Prop :=
  ∃ hist : QueryResult → List Message,
    ∀ (env : Env) (jl : String → Option JsonV) (elapsed maxA : Nat)
      (sys : Option String) (usr : String) (fs : Option FunctionSpec)
      (model : String)
      (call : List Message → Nat → Except ErrorKind Completion)
      (st st' : ClientState) (r : QueryResult) (n : Nat),
      query env jl elapsed maxA sys (some usr) fs model call st =
        (.ok r, st', n) →
      ∃ a : Message, a.role = .assistant ∧
        hist r = opt_messages_to_list sys (some usr) ++ [a]

/-- C2, counterexample: `query` returns only
`(output, req_time, in_tokens, out_tokens, info)` — no component carries the
message history.  Concretely, the two successful calls with user messages
`"A"` and `"B"` against the same provider completion return the *identical*
value `resEx`, so no projection of the returned value can yield the two
different updated histories the claim requires. -/
theorem query_history_claim_false :
    (query env0 jl0 0 1 none (some "A") none "gpt-4o-2024-05-13" callEx
        initClientState = (.ok resEx, stAfterGpt, 1) ∧
     query env0 jl0 0 1 none (some "B") none "gpt-4o-2024-05-13" callEx
        initClientState = (.ok resEx, stAfterGpt, 1)) ∧
    ¬ queryReturnsUpdatedHistory := by
  refine ⟨⟨rfl, rfl⟩, ?_⟩
  rintro ⟨hist, h⟩
  obtain ⟨a, -, hA⟩ := h env0 jl0 0 1 none "A" none "gpt-4o-2024-05-13" callEx
    initClientState stAfterGpt resEx 1 rfl
  obtain ⟨b, -, hB⟩ := h env0 jl0 0 1 none "B" none "gpt-4o-2024-05-13" callEx
    initClientState stAfterGpt resEx 1 rfl
  rw [hA] at hB
  simp [opt_messages_to_list] at hB

/-- C2 (amended): `query` maintains and returns no message history: its
returned value is exactly the tuple
`(output, req_time, in_tokens, out_tokens, info)`, and two calls that differ
only in their system/user messages but see the same per-attempt provider
outcomes return identical values.  What `query` does with the conversation is
one-shot: the outgoing sequence is the optional system turn followed by the
optional user turn — at most two messages, never prior history. -/
theorem query_returns_no_history :
    (∀ (env : Env) (jl : String → Option JsonV) (elapsed maxA : Nat)
       (sys usr sys' usr' : Option String) (fs : Option FunctionSpec)
       (model : String) (perCall : Nat → Except ErrorKind Completion)
       (st : ClientState),
       query env jl elapsed maxA sys usr fs model (fun _ => perCall) st =
         query env jl elapsed maxA sys' usr' fs model (fun _ => perCall) st) ∧
    (∀ s u, opt_messages_to_list (some s) (some u) =
      [⟨.system, s⟩, ⟨.user, u⟩]) ∧
    (∀ s u, (opt_messages_to_list s u).length =
      (if s.isSome then 1 else 0) + (if u.isSome then 1 else 0)) := by
  refine ⟨fun _ _ _ _ _ _ _ _ _ _ _ _ => rfl, fun _ _ => rfl, fun s u => ?_⟩
  cases s <;> cases u <;> rfl

/-! ## Claims C5, C7, C8: the reflection loop -/

/-- When no reply in the window contains the sentinel or a fenced `latex`
block, the reflection loop performs every remaining round and keeps the
artifact unchanged. -/
theorem reflectLoop_keep (resp : Nat → String) :
    ∀ (r i attempt : Nat) (a : String),
      (∀ j, i ≤ j → j < i + r →
        hasDoneSentinel (resp j) = false ∧ extractLatexBlock (resp j) = none) →
      (reflectLoop resp i r attempt a).1 = a ∧
      (reflectLoop resp i r attempt a).2.2 = r := by
  intro r
  induction r with
  | zero => intro i attempt a _; exact ⟨rfl, rfl⟩
  | succ r ih =>
    intro i attempt a h
    have hi := h i le_rfl (by omega)
    have ih' := ih (i + 1) (attempt + 1) a
      (fun j hj1 hj2 => h j (by omega) (by omega))
    rw [reflectLoop]
    simp only [hi.1, hi.2]
    exact ⟨ih'.1, by simp [ih'.2]⟩

/-- Claim C5: in a session whose generation reply yields the artifact `ga0`
and in which no critique reply contains the sentinel `"I am done"` nor a new
fenced `latex` block, the controller runs exactly `n_reflections` critique
rounds and the artifact held at termination is byte-for-byte the originally
extracted one. -/
theorem reflection_no_sentinel_no_block_runs_all_rounds
    (genResponse : String) (resp : Nat → String) (n : Nat)
    (pdfExists : CompileTarget → Bool) (ga0 : String)
    (hgen : extractLatexBlock genResponse = some ga0)
    (h : ∀ i, i < n →
      hasDoneSentinel (resp i) = false ∧ extractLatexBlock (resp i) = none) :
    (performGAGenPhase genResponse resp n pdfExists).rounds = n ∧
    (performGAGenPhase genResponse resp n pdfExists).artifact = ga0 := by
  have hk := reflectLoop_keep resp n 0 0 ga0
    (fun j _ hj => h j (by omega))
  unfold performGAGenPhase
  simp only [hgen]
  exact ⟨hk.2, hk.1⟩

/-- Witness for `reflection_no_sentinel_no_block_runs_all_rounds`: two
critique rounds whose replies carry neither sentinel nor block leave the
artifact `"A"` unchanged after exactly two rounds. -/
theorem reflection_no_sentinel_no_block_runs_all_rounds_witness :
    (performGAGenPhase "x ```latex A ``` y" (fun _ => "keep going") 2
      (fun _ => true)).rounds = 2 ∧
    (performGAGenPhase "x ```latex A ``` y" (fun _ => "keep going") 2
      (fun _ => true)).artifact = "A" :=
  reflection_no_sentinel_no_block_runs_all_rounds "x ```latex A ``` y"
    (fun _ => "keep going") 2 (fun _ => true) "A" (by decide)
    (fun _ _ => ⟨rfl, rfl⟩)

/-- Claim C7: when the generation reply contains no fenced `latex` block, the
session fails at once (the spec's `ArtifactExtractionError`, surfaced as the
unsuccessful terminal result): the returned flag is false and no compile, no
critique and no revision happens — zero iterations. -/
theorem generation_without_block_fails_immediately
    (genResponse : String) (resp : Nat → String) (n : Nat)
    (pdfExists : CompileTarget → Bool)
    (h : extractLatexBlock genResponse = none) :
    performGAGenPhase genResponse resp n pdfExists =
      { success := false, artifact := "", compiles := [], rounds := 0 } := by
  unfold performGAGenPhase
  simp only [h]

/-- Witness for `generation_without_block_fails_immediately` on a reply with
no fenced block. -/
theorem generation_without_block_fails_immediately_witness :
    performGAGenPhase "sorry, here is prose only" (fun _ => "more prose") 3
        (fun _ => true) =
      { success := false, artifact := "", compiles := [], rounds := 0 } :=
  generation_without_block_fails_immediately "sorry, here is prose only"
    (fun _ => "more prose") 3 (fun _ => true) (by decide)

/-- Claim C8: whenever the generation phase completes (an artifact was
extracted), exactly one final compile pass runs after the loop — the compile
sequence is the numbered per-round compiles followed by a single final
target — and the session reports success exactly when the final PDF exists,
for every sequence of critique replies, i.e. never based on the model's
self-assessment. -/
theorem final_compile_and_success_iff_pdf
    (genResponse : String) (resp : Nat → String) (n : Nat)
    (pdfExists : CompileTarget → Bool) (ga0 : String)
    (hgen : extractLatexBlock genResponse = some ga0) :
    (performGAGenPhase genResponse resp n pdfExists).success =
      pdfExists .final ∧
    ∃ pre, (performGAGenPhase genResponse resp n pdfExists).compiles =
        pre ++ [.final] ∧ ∀ t ∈ pre, t ≠ CompileTarget.final := by
  have hdef : performGAGenPhase genResponse resp n pdfExists =
      { success := pdfExists .final,
        artifact := (reflectLoop resp 0 n 0 ga0).1,
        compiles := (reflectLoop resp 0 n 0 ga0).2.1.map .numbered ++ [.final],
        rounds := (reflectLoop resp 0 n 0 ga0).2.2 } := by
    unfold performGAGenPhase
    rw [hgen]
  rw [hdef]
  refine ⟨rfl, ⟨(reflectLoop resp 0 n 0 ga0).2.1.map .numbered, rfl, ?_⟩⟩
  intro t ht
  simp only [List.mem_map] at ht
  obtain ⟨k, -, rfl⟩ := ht
  simp

/-- Witness for `final_compile_and_success_iff_pdf`: with a compiler whose
final PDF never appears, the session reports failure even though the replies
claim to be done. -/
theorem final_compile_and_success_iff_pdf_witness :
    (performGAGenPhase "x ```latex A ``` y" (fun _ => "I am done") 2
      (fun _ => false)).success = false ∧
    ∃ pre, (performGAGenPhase "x ```latex A ``` y" (fun _ => "I am done") 2
        (fun _ => false)).compiles = pre ++ [.final] ∧
      ∀ t ∈ pre, t ≠ CompileTarget.final :=
  final_compile_and_success_iff_pdf "x ```latex A ``` y" (fun _ => "I am done")
    2 (fun _ => false) "A" (by decide)

/-! ## Claim C9: idempotence of `remove_accents_and_clean` -/

theorem lowerCp_lt128 {c : Nat} (h : c < 128) : lowerCp c < 128 := by
  unfold lowerCp
  split <;> omega

theorem lowerCp_allowed {c : Nat} (h : allowedCp c = true) :
    allowedCp (lowerCp c) = true := by
  unfold allowedCp at h ⊢
  unfold lowerCp
  simp only [Bool.or_eq_true, Bool.and_eq_true, decide_eq_true_eq,
    beq_iff_eq] at h ⊢
  split <;> omega

theorem lowerCp_idem (c : Nat) : lowerCp (lowerCp c) = lowerCp c := by
  unfold lowerCp
  by_cases h : 65 ≤ c ∧ c ≤ 90
  · rw [if_pos h, if_neg (by omega)]
  · rw [if_neg h, if_neg h]

/-- Equality `l.map f = l` holds when `f` fixes every element of `l`. -/
theorem list_map_id_of {α : Type} (f : α → α) :
    ∀ l : List α, (∀ a ∈ l, f a = a) → l.map f = l := by
  intro l
  induction l with
  | nil => intro _; rfl
  | cons x xs ih =>
    intro h
    rw [List.map_cons, h x (List.mem_cons_self x xs),
      ih (fun a ha => h a (List.mem_cons_of_mem x ha))]

/-- Claim C9: `remove_accents_and_clean` is idempotent, for every NFKD
normaliser that is the identity on all-ASCII strings (which the real
`unicodedata.normalize("NFKD", ·)` is, ASCII characters having no
decompositions): its output consists only of code points below 128 in the
kept class with no uppercase letters, and each pipeline stage fixes such
strings. -/
theorem remove_accents_and_clean_idempotent
    (nfkd : List Nat → List Nat)
    (hn : ∀ l, (∀ c ∈ l, c < 128) → nfkd l = l) (s : List Nat) :
    remove_accents_and_clean nfkd (remove_accents_and_clean nfkd s) =
      remove_accents_and_clean nfkd s := by
  set t := remove_accents_and_clean nfkd s with ht
  have hmem : ∀ c ∈ t, c < 128 ∧ allowedCp c = true ∧ lowerCp c = c := by
    intro c hc
    rw [ht] at hc
    unfold remove_accents_and_clean at hc
    simp only [List.mem_map, List.mem_filter, decide_eq_true_eq] at hc
    obtain ⟨d, ⟨⟨-, hd2⟩, hd3⟩, rfl⟩ := hc
    exact ⟨lowerCp_lt128 hd2, lowerCp_allowed hd3, lowerCp_idem d⟩
  unfold remove_accents_and_clean
  rw [hn t (fun c hc => (hmem c hc).1)]
  rw [show List.filter (fun c => decide (c < 128)) t = t from
    List.filter_eq_self.mpr (fun c hc => by simpa using (hmem c hc).1)]
  rw [show List.filter allowedCp t = t from
    List.filter_eq_self.mpr (fun c hc => (hmem c hc).2.1)]
  exact list_map_id_of lowerCp t (fun c hc => (hmem c hc).2.2)

/-- Witness for `remove_accents_and_clean_idempotent` with the identity
normaliser on the code points of `"Café_X!"` (the accented `é` and the `!`
are dropped, `C` and `X` lowercased), applied twice. -/
theorem remove_accents_and_clean_idempotent_witness :
    remove_accents_and_clean id [67, 97, 102, 233, 95, 88, 33] =
      [99, 97, 102, 95, 120] ∧
    remove_accents_and_clean id
        (remove_accents_and_clean id [67, 97, 102, 233, 95, 88, 33]) =
      remove_accents_and_clean id [67, 97, 102, 233, 95, 88, 33] :=
  ⟨by decide,
   remove_accents_and_clean_idempotent id (fun _ _ => rfl)
     [67, 97, 102, 233, 95, 88, 33]⟩

/-! ## Claim C10: the `graphical_abstract` folder reset comes first -/

/-- Claim C10: every invocation of `perform_graph_abstract` — whatever the
filesystem configuration, the replies, and the `no_generation` flag,
including runs that subsequently fail — starts by deleting any pre-existing
`graphical_abstract` subfolder of the base folder and recreating it empty:
the trace's head is exactly the conditional `rmtree` followed by `makedirs`,
and no input read, directory listing, or model call occurs before that reset
is complete. -/
theorem ga_folder_reset_first (cfg : GAConfig) (noGeneration : Bool) :
    (performGATrace cfg noGeneration).take (cleanupLen cfg) =
      (if cfg.gaFolderExists then
        [.rmtree (pathJoin cfg.baseFolder "graphical_abstract")] else []) ++
      [.makedirs (pathJoin cfg.baseFolder "graphical_abstract")] ∧
    ∀ i, i < cleanupLen cfg →
      isInputEffect ((performGATrace cfg noGeneration).getD i
        (.makedirs "")) = false := by
  obtain ⟨base, gaEx, ri, im, bs, rs, ab, lf, tt, fd, pngs, ag, gt, vr, gr, rr, nr⟩ := cfg
  cases gaEx
  · refine ⟨rfl, ?_⟩
    intro i hi
    simp only [cleanupLen] at hi
    norm_num at hi
    subst hi
    rfl
  · refine ⟨rfl, ?_⟩
    intro i hi
    simp only [cleanupLen] at hi
    norm_num at hi
    interval_cases i <;> rfl

/-- A concrete configuration with a pre-existing `graphical_abstract`
folder, all inputs present, and a generation reply with no fenced block (a
run that fails and returns `False`). -/
def cfgEx : GAConfig :=
  { baseFolder := "proj",
    gaFolderExists := true,
    researchIdeaExists := true,
    ideaMdExists := false,
    baselineSummaryExists := true,
    researchSummaryExists := true,
    ablationSummaryExists := true,
    latexFolderExists := true,
    templateTexExists := true,
    figuresDirExists := true,
    pngs := ["plot1.png"],
    aggregatorExists := true,
    gaTexExists := false,
    vlmRaises := false,
    genResponse := "prose with no block",
    reflResponses := fun _ => "",
    nReflections := 2 }

/-- Witness for `ga_folder_reset_first` on `cfgEx`: the trace of this
failing generation run starts with the folder removal and recreation, and
its first effect is not an input read or model call. -/
theorem ga_folder_reset_first_witness :
    (performGATrace cfgEx false).take 2 =
      [.rmtree "proj/graphical_abstract",
       .makedirs "proj/graphical_abstract"] ∧
    isInputEffect ((performGATrace cfgEx false).getD 0 (.makedirs "")) =
      false := by
  have h := ga_folder_reset_first cfgEx false
  exact ⟨h.1, h.2 0 (by decide)⟩

end AISci
